import Mathlib

/-!
Shallow embedding of the session-lifecycle core of `blink/sessions.py`
(a Qt SIP softphone UI): the `SessionState` wildcard string comparison,
the `BlinkSession` state machine (hold/unhold, end, delete, terminate,
DNS-lookup handlers, initialization), the `BlinkFileTransfer` retry path,
the incoming-request priority queue, ringtone arbitration and client
conference dissolution, together with theorems checking the documented
behaviour of each part.
-/

namespace Blink

/-- Split a list of characters at the first slash, mirroring Python
`str.partition('/')`: returns the characters before the first slash and,
when a slash is present, the characters after it. -/
def splitAtSlash : List Char → List Char × Option (List Char)
  | [] => ([], none)
  | c :: cs =>
    if c = '/' then ([], some cs)
    else ((splitAtSlash cs).1.cons c, (splitAtSlash cs).2)

/-- `SessionState.state`: the part before the first slash, or `none` when
empty (Python `str(self.partition('/')[0]) or None`). -/
def statePart (s : String) : Option String :=
  let p := splitAtSlash s.toList
  if p.1.isEmpty then none else some (String.mk p.1)

/-- `SessionState.substate`: the part after the first slash, or `none` when
empty or when there is no slash (Python `str(self.partition('/')[2]) or None`). -/
def substatePart (s : String) : Option String :=
  match splitAtSlash s.toList with
  | (_, none) => none
  | (_, some b) => if b.isEmpty then none else some (String.mk b)

/-- `SessionState.__eq__` against a plain string, from `sessions.py`:
wildcard comparison where a `*` state part matches any state and a `*`
substate part matches any substate (including an absent one). -/
def sessionStateEqStr (self other : String) : Bool :=
  let state := statePart other
  let substate := substatePart other
  if state == some "*" then
    substate == some "*" || substate == none || substatePart self == substate
  else if substate == some "*" then
    statePart self == state
  else
    statePart self == state && substatePart self == substate

/-- A `SessionState` value: the raw `state/substate` string plus the
`reason`/`error` attributes that `_terminate` attaches to the `ended`
state. -/
structure SessionState where
  raw : String
  reason : Option String := none
  error : Bool := false
deriving Repr, DecidableEq

/-- `SessionState.__ne__` between two state values (used by the `state`
property setter): parts-wise comparison, `none` (no state yet) differs
from any state. -/
def stateNe : Option SessionState → Option SessionState → Bool
  | some a, some b =>
    !(statePart a.raw == statePart b.raw && substatePart a.raw == substatePart b.raw)
  | some _, none => true
  | none, some _ => true
  | none, none => false

/-- Notifications posted by `BlinkSession` (only those relevant to the
claims). -/
inductive Notif where
  | didChangeState (old nw : Option SessionState)
  | willEnd
  | didEnd (reason : String) (error : Bool)
  | wasDeleted
  | didChangeHoldState (localHold remoteHold : Bool)
  | willConnect
  | connectionProgress (stage : String)
  | newOutgoing
  | infoUpdated
deriving Repr, DecidableEq

/-- A media stream or stream description, reduced to its type tag. -/
structure StreamDescription where
  type : String
deriving Repr, DecidableEq

/-- The mutable fields of a `BlinkSession` that the verified operations
touch.  References to engine objects (`sip_session`, `lookup`, account,
contact) are modelled by opaque numeric ids. -/
structure BlinkSession where
  state : Option SessionState := none
  direction : Option String := none
  deleteWhenDone : Bool := false
  deleteRequested : Bool := false
  sipSession : Option Nat := none
  lookup : Option Nat := none
  localHold : Bool := false
  remoteHold : Bool := false
  recording : Bool := false
  streams : List StreamDescription := []
  streamDescriptions : Option (List StreamDescription) := none
  routes : Option (List Nat) := none
  account : Option Nat := none
  contact : Option Nat := none
  contactUri : Option Nat := none
deriving Repr, DecidableEq

/-- The `state` property setter: stores the new value and posts
`BlinkSessionDidChangeState` when the new state differs (under the
wildcard-aware comparison) from the old one. -/
def setState (s : BlinkSession) (v : SessionState) :
    BlinkSession × List Notif :=
  let old := s.state
  let s1 := { s with state := some v }
  if stateNe (some v) old then (s1, [Notif.didChangeState old (some v)])
  else (s1, [])

/-- `BlinkSession.persistent`: not marked for deletion when done and no
explicit deletion requested. -/
def persistent (s : BlinkSession) : Bool :=
  !s.deleteWhenDone && !s.deleteRequested

/-- `BlinkSession._delete`: only acts in state `ended`; moves to `deleted`,
posts `BlinkSessionWasDeleted` and drops the account/contact references. -/
def deleteSession (s : BlinkSession) : BlinkSession × List Notif :=
  match s.state with
  | none => (s, [])
  | some st =>
    if sessionStateEqStr st.raw "ended" then
      let p := setState s { raw := "deleted" }
      ({ p.1 with account := none, contact := none, contactUri := none },
        p.2 ++ [Notif.wasDeleted])
    else (s, [])

/-- `BlinkSession._terminate`: the single funnel to `ended`; enters
`ending` first when not already there, clears streams and engine
references, sets `ended` carrying `(reason, error)`, posts
`BlinkSessionDidEnd` and self-deletes when not persistent. -/
def terminate (s : BlinkSession) (reason : String) (error : Bool) :
    BlinkSession × List Notif :=
  let p1 :=
    match s.state with
    | some st =>
      if sessionStateEqStr st.raw "ending" then (s, ([] : List Notif))
      else
        let q := setState s { raw := "ending" }
        (q.1, q.2 ++ [Notif.willEnd])
    | none =>
      let q := setState s { raw := "ending" }
      (q.1, q.2 ++ [Notif.willEnd])
  let s2 := { p1.1 with streams := [], lookup := none, sipSession := none,
                        streamDescriptions := none, localHold := false,
                        remoteHold := false, recording := false }
  let p3 := setState s2 { raw := "ended", reason := some reason, error := error }
  let notifs := p1.2 ++ p3.2 ++ [Notif.didEnd reason error]
  if persistent p3.1 then (p3.1, notifs)
  else
    let p4 := deleteSession p3.1
    (p4.1, notifs ++ p4.2)

/-- `BlinkSession.end`: records the deletion request; from `ending` or
`ended` it never re-enters `ending` (from `ended` with `delete=True` it
deletes at once); from `initialized`/`connecting/*`/`connected/*` it moves
to `ending` and either terminates locally (no engine session) or asks the
engine to end. -/
def endSession (s : BlinkSession) (delete : Bool) : BlinkSession × List Notif :=
  match s.state with
  | none => (s, [])
  | some st =>
    if sessionStateEqStr st.raw "ending" then
      ({ s with deleteRequested := delete }, [])
    else if sessionStateEqStr st.raw "ended" then
      let s1 := { s with deleteRequested := delete }
      if delete then deleteSession s1 else (s1, [])
    else if sessionStateEqStr st.raw "initialized" ||
            sessionStateEqStr st.raw "connecting/*" ||
            sessionStateEqStr st.raw "connected/*" then
      let s1 := { s with deleteRequested := delete }
      let p2 := setState s1 { raw := "ending" }
      let notifs := p2.2 ++ [Notif.willEnd]
      match p2.1.sipSession with
      | none =>
        let p3 := terminate p2.1 "Call cancelled" true
        (p3.1, notifs ++ p3.2)
      | some _ => (p2.1, notifs)
    else (s, [])

/-- `BlinkSession.hold`: only effective when an engine session exists and
the session is not already locally held. -/
def hold (s : BlinkSession) : BlinkSession × List Notif :=
  if s.sipSession.isSome && !s.localHold then
    let s1 := { s with localHold := true }
    (s1, [Notif.didChangeHoldState s1.localHold s1.remoteHold])
  else (s, [])

/-- `BlinkSession.unhold`: only effective when an engine session exists and
the session is locally held. -/
def unhold (s : BlinkSession) : BlinkSession × List Notif :=
  if s.sipSession.isSome && s.localHold then
    let s1 := { s with localHold := false }
    (s1, [Notif.didChangeHoldState s1.localHold s1.remoteHold])
  else (s, [])

/-- States in which the `init_*` entry points accept a session (the
`assert self.state in (None, 'initialized', 'ended')`). -/
def stateOkForInit : Option SessionState → Bool
  | none => true
  | some st =>
    sessionStateEqStr st.raw "initialized" || sessionStateEqStr st.raw "ended"

/-- `BlinkSession.init_incoming` (non-reinitialize path), restricted to
the fields the claims touch: the same single-audio-stream rule for
`_delete_when_done`, direction `incoming`, the engine session attached
and the state moved to `connecting`. -/
def init_incoming (s : BlinkSession) (sipSession contact contactUri : Nat)
    (streams : List StreamDescription) :
    Option (BlinkSession × List Notif) :=
  if stateOkForInit s.state then
    let dwd := streams.length == 1 && (streams.headD { type := "" }).type == "audio"
    let s1 := { s with deleteWhenDone := dwd,
                       direction := some "incoming",
                       sipSession := some sipSession,
                       contact := some contact,
                       contactUri := some contactUri,
                       streams := s.streams ++ streams }
    let p2 := setState s1 { raw := "connecting" }
    some (p2.1, p2.2 ++ [Notif.infoUpdated, Notif.connectionProgress "connecting"])
  else none

/-- `BlinkSession.init_outgoing` (non-reinitialize path), restricted to the
fields the claims touch: `_delete_when_done` is set exactly when the
requested stream set is a single audio stream; direction, account, contact
and the stream descriptions are stored and the state becomes
`initialized`.  `none` models the assertion failing. -/
def init_outgoing (s : BlinkSession) (account contact contactUri : Nat)
    (stream_descriptions : List StreamDescription) :
    Option (BlinkSession × List Notif) :=
  if stateOkForInit s.state then
    let dwd := stream_descriptions.length == 1 &&
      (stream_descriptions.headD { type := "" }).type == "audio"
    let s1 := { s with deleteWhenDone := dwd,
                       direction := some "outgoing",
                       account := some account,
                       contact := some contact,
                       contactUri := some contactUri,
                       streamDescriptions := some stream_descriptions }
    let p2 := setState s1 { raw := "initialized" }
    some (p2.1, p2.2 ++ [Notif.newOutgoing, Notif.infoUpdated])
  else none

/-- `BlinkSession._NH_DNSLookupDidSucceed`: when the notification comes
from the session's own lookup, a non-empty route list stores the routes,
sets the state (to the literal string `connection/dns_lookup_succeeded`
found in the source) and creates and connects the engine session; an empty
route list clears the routes and terminates with `Domain not found in
DNS`. -/
def dnsLookupDidSucceed (s : BlinkSession) (sender newSipSession : Nat)
    (routeResult : List Nat) : BlinkSession × List Notif :=
  if s.lookup == some sender then
    if !routeResult.isEmpty then
      let s1 := { s with routes := some routeResult }
      let p2 := setState s1 { raw := "connection/dns_lookup_succeeded" }
      ({ p2.1 with sipSession := some newSipSession }, p2.2)
    else
      terminate { s with routes := none } "Domain not found in DNS" true
  else (s, [])

/-- `BlinkSession._NH_DNSLookupDidFail`: when the notification comes from
the session's own lookup, terminate with `Domain not found in DNS`. -/
def dnsLookupDidFail (s : BlinkSession) (sender : Nat) :
    BlinkSession × List Notif :=
  if s.lookup == some sender then
    terminate s "Domain not found in DNS" true
  else (s, [])

/-- Count the hold-state-change notifications in a list. -/
def countHoldNotifs (l : List Notif) : Nat :=
  l.countP fun n =>
    match n with
    | Notif.didChangeHoldState _ _ => true
    | _ => false

/-- A file selector: the file name and the (possibly already computed)
hash, as carried by `BlinkFileTransfer.file_selector`. -/
structure FileSelector where
  name : String
  hash : Option String := none
deriving Repr, DecidableEq

/-- The fields of `os.fstat` that `BlinkFileTransfer` records in
`self._stat`. -/
structure FileStat where
  mtime : Int
  size : Int
deriving Repr, DecidableEq

/-- Notifications posted by `BlinkFileTransfer` (only those relevant to
the claims). -/
inductive FTNotif where
  | didChangeState (old nw : Option SessionState)
  | willRetry
deriving Repr, DecidableEq

/-- The mutable fields of a `BlinkFileTransfer` touched by `connect()`. -/
structure BlinkFileTransfer where
  state : Option SessionState := none
  direction : Option String := none
  transferType : Option String := none
  fileSelector : Option FileSelector := none
  stat : Option FileStat := none
  pullHash : Option String := none
deriving Repr, DecidableEq

/-- The `state` property setter of `BlinkFileTransfer` (same wildcard-aware
change detection as for sessions). -/
def ftSetState (t : BlinkFileTransfer) (v : SessionState) :
    BlinkFileTransfer × List FTNotif :=
  let old := t.state
  let t1 := { t with state := some v }
  if stateNe (some v) old then (t1, [FTNotif.didChangeState old (some v)])
  else (t1, [])

/-- `BlinkFileTransfer.connect()`.  `freshSelector`/`freshStat` stand for
the results of `FileSelector.for_file(self.filename)` and `os.fstat` on
the reopened file.  `Except.error` models a raised exception (the
entry assertion, or touching a missing `file_selector`); the retry path
from `ended` reuses the previously computed hash when the recorded mtime
is unchanged, re-enters `initialized`, then starts the DNS lookup and
moves to `connecting/dns_lookup`. -/
def ftConnect (t : BlinkFileTransfer) (freshSelector : FileSelector)
    (freshStat : FileStat) : Except String (BlinkFileTransfer × List FTNotif) :=
  let stateOk :=
    match t.state with
    | none => false
    | some st =>
      sessionStateEqStr st.raw "initialized" || sessionStateEqStr st.raw "ended" ||
      sessionStateEqStr st.raw "encrypting" || sessionStateEqStr st.raw "encrypted"
  if !(t.direction == some "outgoing" && stateOk) then
    Except.error "AssertionError"
  else if (match t.state with
           | some st => sessionStateEqStr st.raw "encrypting"
           | none => false) then
    Except.ok (t, [])
  else
    let retry :
        Except String (BlinkFileTransfer × List FTNotif) :=
      match t.state with
      | some st =>
        if sessionStateEqStr st.raw "ended" then
          let mtimeUnchanged :=
            match t.stat with
            | some old => freshStat.mtime == old.mtime
            | none => false
          if mtimeUnchanged then
            match t.fileSelector with
            | none => Except.error "AttributeError"
            | some oldSel =>
              let sel1 := { freshSelector with hash := oldSel.hash }
              let sel2 := if t.transferType == some "pull" then
                  { sel1 with hash := t.pullHash } else sel1
              let t1 := { t with fileSelector := some sel2, stat := some freshStat }
              let p := ftSetState t1 { raw := "initialized" }
              Except.ok (p.1, p.2 ++ [FTNotif.willRetry])
          else
            let sel2 := if t.transferType == some "pull" then
                { freshSelector with hash := t.pullHash } else freshSelector
            let t1 := { t with fileSelector := some sel2, stat := some freshStat }
            let p := ftSetState t1 { raw := "initialized" }
            Except.ok (p.1, p.2 ++ [FTNotif.willRetry])
        else Except.ok (t, [])
      | none => Except.ok (t, [])
    match retry with
    | Except.error e => Except.error e
    | Except.ok (t1, n1) =>
      let p2 := ftSetState t1 { raw := "connecting/dns_lookup" }
      Except.ok (p2.1, n1 ++ p2.2)

/-- An incoming request, covering `IncomingRequest` (dialog-based, with the
four optional streams) and `IncomingFileTransferRequest` (fixed priority
4); `rid` models Python object identity, which both classes use for
`__eq__`. -/
structure IncomingRequest where
  rid : Nat
  isFileTransfer : Bool := false
  hasAudio : Bool := false
  hasVideo : Bool := false
  hasScreen : Bool := false
  hasChat : Bool := false
deriving Repr, DecidableEq

/-- `IncomingRequest.priority` / `IncomingFileTransferRequest.priority`:
audio 0, video 1, screen sharing 2, chat 3, file transfer 4, otherwise
`sys.maxsize`. -/
def IncomingRequest.priority (r : IncomingRequest) : Nat :=
  if r.isFileTransfer then 4
  else if r.hasAudio then 0
  else if r.hasVideo then 1
  else if r.hasScreen then 2
  else if r.hasChat then 3
  else 9223372036854775807

/-- `bisect.insort_right` on the request list, driven by the priority
order that the requests' comparison methods define: the new request goes
before the first strictly greater entry, i.e. after all entries of equal
priority. -/
def insort_right (x : IncomingRequest) : List IncomingRequest → List IncomingRequest
  | [] => [x]
  | h :: t =>
    if x.priority < h.priority then x :: h :: t
    else h :: insort_right x t

/-- `list.index` via Python object identity (both request classes define
`__eq__` as identity). -/
def indexOfReq (x : IncomingRequest) : List IncomingRequest → Nat
  | [] => 0
  | h :: t => if h.rid == x.rid then 0 else indexOfReq x t + 1

/-- The request list is sorted by non-decreasing priority. -/
def sortedByPriority (l : List IncomingRequest) : Prop :=
  l.Pairwise fun a b => a.priority ≤ b.priority

/-- The `activate` argument of `incoming_request.dialog.show(...)` in
`_NH_SIPSessionNewIncoming`: there is an active window and the freshly
inserted request sits at index 0 of the (just updated) request list. -/
def showActivate (hasActiveWindow : Bool) (l : List IncomingRequest)
    (x : IncomingRequest) : Bool :=
  hasActiveWindow && (indexOfReq x (insort_right x l) == 0)

/-- The state relevant to client-conference dissolution: the member list
of one `ClientConference` (session ids, the conference itself has id 0)
and each session's `client_conference` reference. -/
structure ConfWorld where
  members : List Nat
  cc : Nat → Option Nat

/-- The `client_conference` property setter applied with `None`: a no-op
when already `None`, otherwise it clears the reference and the old
conference removes the session from its member list. -/
def setCCNone (w : ConfWorld) (sid : Nat) : ConfWorld :=
  match w.cc sid with
  | none => w
  | some _ =>
    { members := w.members.erase sid,
      cc := fun t => if t = sid then none else w.cc t }

/-- The conference part of `AudioSessionModel.removeSession`: when the
removed session belongs to a conference of exactly two members, both
members drop their `client_conference`; otherwise only the removed
session leaves.  (The drag-and-drop handler
`_DH_ApplicationXBlinkSessionList` performs the same two assignments in
its 2-member branch.) -/
def removeSessionConf (w : ConfWorld) (sid : Nat) : ConfWorld :=
  match w.cc sid with
  | none => w
  | some _ =>
    if w.members.length = 2 then
      match w.members with
      | [a, b] => setCCNone (setCCNone w a) b
      | _ => w
    else setCCNone w sid

/-- The type tag of a ringtone player: the two marker types of
`SessionManager`, the `None` tag used for hold tones, and `Null` standing
for no player. -/
inductive ToneType where
  | primary
  | secondary
  | noTone
  | nullT
deriving Repr, DecidableEq

/-- A ringtone player reduced to what `update_ringtone` decides: its type
tag, the wave file, and which audio bridge it is added to. -/
structure Tone where
  ttype : ToneType
  path : String := ""
  alertBridge : Bool := false
deriving Repr, DecidableEq

/-- The `Null` ringtone (no player). -/
def nullTone : Tone := { ttype := ToneType.nullT }

/-- Snapshot of one session as read by `update_ringtone`. -/
structure SessionSnap where
  state : String
  direction : String
  onHold : Bool
  proposedAudio : Bool
deriving Repr, DecidableEq

/-- Snapshot of one file transfer as read by `update_ringtone`. -/
structure TransferSnap where
  state : String
  direction : String
deriving Repr, DecidableEq

/-- Snapshot of one incoming request as read by `update_ringtone`:
whether its stream types intersect `{audio, video}` and the account's own
inbound ringtone, if set. -/
structure RequestSnap where
  hasAudioVideo : Bool
  accountRingtone : Option String
deriving Repr, DecidableEq

/-- The settings `update_ringtone` reads. -/
structure RingtoneSettings where
  outboundRingtone : Option String
  inboundRingtone : Option String
  silent : Bool
deriving Repr, DecidableEq

/-- The snapshot `update_ringtone` is a function of. -/
structure Snapshot where
  sessions : List SessionSnap
  fileTransfers : List TransferSnap
  incomingRequests : List RequestSnap
  activeSession : Option SessionSnap
  settings : RingtoneSettings
deriving Repr, DecidableEq

/-- The decision logic of `SessionManager.update_ringtone`, computing the
(outbound, inbound, hold) tone players from the snapshot. -/
def ringtoneTriple (snap : Snapshot) : Tone × Tone × Tone :=
  let outSessions := snap.sessions.filter fun s =>
    (sessionStateEqStr s.state "connecting/ringing" && s.direction == "outgoing") ||
      sessionStateEqStr s.state "connected/sent_proposal"
  let outTransfers := snap.fileTransfers.filter fun t =>
    sessionStateEqStr t.state "connecting/ringing" && t.direction == "outgoing"
  let outbound :=
    if outSessions.any (fun s => !s.onHold) || !outTransfers.isEmpty then
      match snap.settings.outboundRingtone with
      | some path =>
        if !snap.settings.silent then
          if outSessions.any (fun s => s.proposedAudio && !s.onHold) then
            { ttype := ToneType.primary, path := path : Tone }
          else
            { ttype := ToneType.secondary, path := "sounds/beeping_ringtone.wav" }
        else nullTone
      | none => nullTone
    else nullTone
  let inbound :=
    match snap.incomingRequests with
    | [] => nullTone
    | r0 :: _ =>
      let pick :=
        match snap.incomingRequests.find? (fun r => r.hasAudioVideo) with
        | some r => (r, ToneType.primary)
        | none => (r0, ToneType.secondary)
      let rt :=
        if outbound.ttype == ToneType.primary then ToneType.secondary
        else
          match snap.activeSession with
          | some a =>
            if sessionStateEqStr a.state "connected/*" then ToneType.secondary
            else pick.2
          | none => pick.2
      let soundFile :=
        match pick.1.accountRingtone with
        | some p => some p
        | none => snap.settings.inboundRingtone
      match soundFile with
      | some sf =>
        if !snap.settings.silent then
          { ttype := rt,
            path := if rt == ToneType.primary then sf
                    else "sounds/beeping_ringtone.wav",
            alertBridge := true }
        else nullTone
      | none => nullTone
  let connected := snap.sessions.filter fun s =>
    sessionStateEqStr s.state "connected/*"
  let connectedOnHold := connected.filter fun s => s.onHold
  let holdTone :=
    if outbound.ttype == ToneType.nullT && inbound.ttype == ToneType.nullT &&
        !connected.isEmpty && !snap.settings.silent then
      if connected.length = connectedOnHold.length then
        { ttype := ToneType.noTone, path := "sounds/hold_tone.wav",
          alertBridge := true : Tone }
      else if 0 < connectedOnHold.length then
        { ttype := ToneType.noTone, path := "sounds/hold_tone.wav",
          alertBridge := false }
      else nullTone
    else nullTone
  (outbound, inbound, holdTone)

/-- `RingtoneDescriptor.__set__`: assigning a non-`Null` ringtone whose
type equals the current one keeps the current player; otherwise the new
value replaces it. -/
def assignRingtone (old nw : Tone) : Tone :=
  if nw.ttype != ToneType.nullT && nw.ttype == old.ttype then old else nw

/-- The manager state touched by `update_ringtone`: the snapshot it reads
and the three tone-player fields it assigns. -/
structure ManagerState where
  snap : Snapshot
  outboundRingtone : Tone := nullTone
  inboundRingtone : Tone := nullTone
  holdTone : Tone := nullTone
deriving Repr, DecidableEq

/-- `SessionManager.update_ringtone`: computes the three tones from the
snapshot and assigns them through the descriptor semantics. -/
def update_ringtone (m : ManagerState) : ManagerState :=
  let triple := ringtoneTriple m.snap
  { m with outboundRingtone := assignRingtone m.outboundRingtone triple.1,
           inboundRingtone := assignRingtone m.inboundRingtone triple.2.1,
           holdTone := assignRingtone m.holdTone triple.2.2 }

/-- The `(outbound, inbound, hold)` tone-type triple of a manager state. -/
def toneTypes (m : ManagerState) : ToneType × ToneType × ToneType :=
  (m.outboundRingtone.ttype, m.inboundRingtone.ttype, m.holdTone.ttype)


/-- `splitAtSlash` splits at the first slash: a slash-free prefix is kept
whole and everything after the first slash is returned unsplit. -/
theorem splitAtSlash_append_slash (b : List Char) :
    ∀ a : List Char, '/' ∉ a → splitAtSlash (a ++ '/' :: b) = (a, some b) := by
  intro a
  induction a with
  | nil => intro _; simp [splitAtSlash]
  | cons c a ih =>
    intro h
    have hc : ¬(c = '/') := by
      intro hc
      exact h (by simp [hc])
    have ha : '/' ∉ a := fun hm => h (List.mem_cons_of_mem _ hm)
    simp [splitAtSlash, hc, ih ha]

/-- C2: the wildcard comparison of `SessionState` against a string `p`
behaves exactly as specified: a `*` state part in `p` matches iff `p`'s
substate is `*`, absent, or equal to `s`'s substate; a `*` substate part in
`p` matches iff the state parts agree (any substate of `s`, including
none); otherwise both parts must agree, an empty substate being absent
(`none`); in particular `connected/x == connected/*` for every substate
`x` and `connected == connected/*`. -/
theorem sessionState_wildcard_eq_spec :
    (∀ s p : String,
      (statePart p = some "*" →
        (sessionStateEqStr s p = true ↔
          (substatePart p = some "*" ∨ substatePart p = none ∨
            substatePart s = substatePart p))) ∧
      (statePart p ≠ some "*" → substatePart p = some "*" →
        (sessionStateEqStr s p = true ↔ statePart s = statePart p)) ∧
      (statePart p ≠ some "*" → substatePart p ≠ some "*" →
        (sessionStateEqStr s p = true ↔
          (statePart s = statePart p ∧ substatePart s = substatePart p)))) ∧
    (∀ x : String, sessionStateEqStr ("connected/" ++ x) "connected/*" = true) ∧
    sessionStateEqStr "connected" "connected/*" = true ∧
    sessionStateEqStr "connected/" "connected" = true ∧
    sessionStateEqStr "connected" "connected/" = true := by
  refine ⟨fun s p => ⟨?_, ?_, ?_⟩, ?_, by decide, by decide, by decide⟩
  · intro hst
    simp [sessionStateEqStr, hst, or_assoc]
  · intro hst hss
    simp only [sessionStateEqStr, hss]
    rw [if_neg (by simpa using hst)]
    simp
  · intro hst hss
    simp only [sessionStateEqStr]
    rw [if_neg (by simpa using hst), if_neg (by simpa using hss)]
    simp
  · intro x
    have hd : ("connected/" ++ x).toList = "connected".toList ++ '/' :: x.toList := by
      have h1 : ("connected/" ++ x).toList = "connected/".toList ++ x.toList := by
        simp [String.toList]
      have h2 : "connected/".toList = "connected".toList ++ ['/'] := by decide
      rw [h1, h2, List.append_assoc, List.singleton_append]
    have hself : statePart ("connected/" ++ x) = some "connected" := by
      simp only [statePart, hd,
        splitAtSlash_append_slash x.toList "connected".toList (by decide)]
      decide
    have hstp : statePart "connected/*" = some "connected" := by decide
    have hssp : substatePart "connected/*" = some "*" := by decide
    simp [sessionStateEqStr, hstp, hssp, hself]

/-- Closed instances of the wildcard comparison obtained from
`sessionState_wildcard_eq_spec` at concrete states and patterns. -/
theorem sessionState_wildcard_eq_spec_witness :
    sessionStateEqStr "connected/x" "*/x" = true ∧
    sessionStateEqStr "foo/bar" "foo/*" = true ∧
    sessionStateEqStr "a/b" "a/b" = true :=
  ⟨((sessionState_wildcard_eq_spec.1 "connected/x" "*/x").1 (by decide)).mpr
      (Or.inr (Or.inr (by decide))),
   ((sessionState_wildcard_eq_spec.1 "foo/bar" "foo/*").2.1 (by decide) (by decide)).mpr
      (by decide),
   ((sessionState_wildcard_eq_spec.1 "a/b" "a/b").2.2 (by decide) (by decide)).mpr
      ⟨by decide, by decide⟩⟩

/-- C5: with an engine session present and `local_hold` initially false,
`hold(); hold()` sets `local_hold` and emits exactly one
`BlinkSessionDidChangeHoldState` notification (the second call is a
no-op), while `hold(); unhold()` restores `local_hold = false` and emits
exactly two such notifications. -/
theorem hold_idempotent_unhold_inverse (s : BlinkSession)
    (hsip : s.sipSession.isSome = true) (hlh : s.localHold = false) :
    countHoldNotifs ((hold s).2 ++ (hold (hold s).1).2) = 1 ∧
    (hold (hold s).1).1.localHold = true ∧
    countHoldNotifs ((hold s).2 ++ (unhold (hold s).1).2) = 2 ∧
    (unhold (hold s).1).1.localHold = false := by
  simp [hold, unhold, hsip, hlh, countHoldNotifs]

/-- Closed instance of C5 at a concrete session with an engine session. -/
theorem hold_idempotent_unhold_inverse_witness :
    countHoldNotifs
      ((hold { sipSession := some 7 }).2 ++
        (hold (hold { sipSession := some 7 }).1).2) = 1 ∧
    (hold (hold { sipSession := some 7 : BlinkSession }).1).1.localHold = true ∧
    countHoldNotifs
      ((hold { sipSession := some 7 }).2 ++
        (unhold (hold { sipSession := some 7 }).1).2) = 2 ∧
    (unhold (hold { sipSession := some 7 : BlinkSession }).1).1.localHold = false :=
  hold_idempotent_unhold_inverse { sipSession := some 7 } (by decide) (by decide)

/-- The first component of `setState` is the record with the new state,
whether or not a change notification is posted. -/
theorem setState_fst (s : BlinkSession) (v : SessionState) :
    (setState s v).1 = { s with state := some v } := by
  simp only [setState]
  split <;> rfl

/-- C4: `init_outgoing` (non-reinitialize) sets `_delete_when_done` exactly
for a single audio stream; a session with `_delete_when_done` and no
deletion request reaches `deleted` synchronously inside `_terminate`,
while a session initialized with two or more streams (so
`_delete_when_done = false`) stays in `ended`. -/
theorem single_audio_session_autodeletes :
    (∀ (s : BlinkSession) (a c u : Nat) (descs : List StreamDescription)
        (r : BlinkSession × List Notif),
        init_outgoing s a c u descs = some r →
        (descs = [{ type := "audio" }] → r.1.deleteWhenDone = true) ∧
        (2 ≤ descs.length → r.1.deleteWhenDone = false)) ∧
    (∀ (s : BlinkSession) (a c u : Nat) (streams : List StreamDescription)
        (r : BlinkSession × List Notif),
        init_incoming s a c u streams = some r →
        (streams = [{ type := "audio" }] → r.1.deleteWhenDone = true) ∧
        (2 ≤ streams.length → r.1.deleteWhenDone = false)) ∧
    (∀ (s : BlinkSession) (reason : String) (error : Bool),
        s.deleteWhenDone = true → s.deleteRequested = false →
        (terminate s reason error).1.state = some { raw := "deleted" }) ∧
    (∀ (s : BlinkSession) (reason : String) (error : Bool),
        s.deleteWhenDone = false → s.deleteRequested = false →
        (terminate s reason error).1.state =
          some { raw := "ended", reason := some reason, error := error }) := by
  have hended : sessionStateEqStr "ended" "ended" = true := by decide
  refine ⟨?_, ?_, ?_, ?_⟩
  · intro s a c u descs r hr
    rw [init_outgoing] at hr
    by_cases hok : stateOkForInit s.state = true
    · rw [if_pos hok] at hr
      injection hr with hr
      constructor
      · intro hd
        subst hd
        rw [← hr]
        simp [setState_fst]
      · intro hlen
        have hne : (descs.length == 1) = false := by
          rw [beq_eq_false_iff_ne]
          omega
        rw [← hr]
        simp [setState_fst, hne]
    · rw [if_neg hok] at hr
      cases hr
  · intro s a c u streams r hr
    rw [init_incoming] at hr
    by_cases hok : stateOkForInit s.state = true
    · rw [if_pos hok] at hr
      injection hr with hr
      constructor
      · intro hd
        subst hd
        rw [← hr]
        simp [setState_fst]
      · intro hlen
        have hne : (streams.length == 1) = false := by
          rw [beq_eq_false_iff_ne]
          omega
        rw [← hr]
        simp [setState_fst, hne]
    · rw [if_neg hok] at hr
      cases hr
  · intro s reason error hdwd hdreq
    rcases hst : s.state with _ | st
    · simp [terminate, setState_fst, hst, persistent, hdwd, hdreq,
        deleteSession, hended]
    · by_cases h : sessionStateEqStr st.raw "ending" = true <;>
        simp [terminate, setState_fst, hst, h, persistent, hdwd, hdreq,
          deleteSession, hended]
  · intro s reason error hdwd hdreq
    rcases hst : s.state with _ | st
    · simp [terminate, setState_fst, hst, persistent, hdwd, hdreq]
    · by_cases h : sessionStateEqStr st.raw "ending" = true <;>
        simp [terminate, setState_fst, hst, h, persistent, hdwd, hdreq]

/-- Closed instance of C4: a fresh session initialized with one audio
stream is marked for deletion, a marked one is deleted by `_terminate`,
an unmarked one stays in `ended`. -/
theorem single_audio_session_autodeletes_witness :
    ((init_outgoing {} 0 0 0 [{ type := "audio" }]).elim False
      (fun r => r.1.deleteWhenDone = true)) ∧
    (terminate { deleteWhenDone := true } "Call ended" false).1.state =
      some { raw := "deleted" } ∧
    (terminate {} "Call ended" false).1.state =
      some { raw := "ended", reason := some "Call ended", error := false } := by
  refine ⟨?_, ?_, ?_⟩
  · rcases hr : init_outgoing {} 0 0 0 [{ type := "audio" }] with _ | r
    · exact absurd hr (by decide)
    · simpa using
        (single_audio_session_autodeletes.1 {} 0 0 0 [{ type := "audio" }] r hr).1 rfl
  · exact single_audio_session_autodeletes.2.2.1
      { deleteWhenDone := true } "Call ended" false rfl rfl
  · exact single_audio_session_autodeletes.2.2.2 {} "Call ended" false rfl rfl

/-- `setState` posts at most a state-change notification, never
`BlinkSessionWillEnd`. -/
theorem willEnd_not_mem_setState (s : BlinkSession) (v : SessionState) :
    Notif.willEnd ∉ (setState s v).2 := by
  simp only [setState]
  split <;> simp

/-- C10: `end(delete=True)` on a session already in `ended` transitions it
to `deleted` at once (posting `BlinkSessionWasDeleted` and clearing the
account, contact and contact-uri references); `end()` from `ending` or
`ended` never posts another `BlinkSessionWillEnd` and never re-enters
`ending` — it only records the deletion request. -/
theorem end_from_ended_or_ending (s : BlinkSession) (st : SessionState)
    (d : Bool) (hs : s.state = some st)
    (hraw : st.raw = "ending" ∨ st.raw = "ended") :
    Notif.willEnd ∉ (endSession s d).2 ∧
    (endSession s d).1.deleteRequested = d ∧
    ((endSession s d).1.state = some st ∨
      (endSession s d).1.state = some { raw := "deleted" }) ∧
    (st.raw = "ended" → d = true →
      (endSession s d).1.state = some { raw := "deleted" } ∧
      Notif.wasDeleted ∈ (endSession s d).2 ∧
      (endSession s d).1.account = none ∧
      (endSession s d).1.contact = none ∧
      (endSession s d).1.contactUri = none) := by
  obtain ⟨raw, rsn, err⟩ := st
  rcases hraw with hraw | hraw <;> subst hraw
  · have h1 : sessionStateEqStr "ending" "ending" = true := by decide
    simp [endSession, hs, h1]
  · have h1 : sessionStateEqStr "ended" "ending" = false := by decide
    have h2 : sessionStateEqStr "ended" "ended" = true := by decide
    cases d <;>
      simp [endSession, hs, h1, h2, deleteSession, setState_fst,
        willEnd_not_mem_setState]

/-- Closed instance of C10 at a session sitting in `ended`. -/
theorem end_from_ended_or_ending_witness :
    Notif.willEnd ∉
      (endSession { state := some { raw := "ended" }, account := some 4,
                    contact := some 5, contactUri := some 6 } true).2 ∧
    (endSession { state := some { raw := "ended" }, account := some 4,
                  contact := some 5, contactUri := some 6 } true).1.deleteRequested
      = true ∧
    ((endSession { state := some { raw := "ended" }, account := some 4,
                   contact := some 5, contactUri := some 6 } true).1.state =
        some { raw := "ended" } ∨
      (endSession { state := some { raw := "ended" }, account := some 4,
                    contact := some 5, contactUri := some 6 } true).1.state =
        some { raw := "deleted" }) ∧
    (({ raw := "ended" } : SessionState).raw = "ended" → true = true →
      (endSession { state := some { raw := "ended" }, account := some 4,
                    contact := some 5, contactUri := some 6 } true).1.state =
        some { raw := "deleted" } ∧
      Notif.wasDeleted ∈
        (endSession { state := some { raw := "ended" }, account := some 4,
                      contact := some 5, contactUri := some 6 } true).2 ∧
      (endSession { state := some { raw := "ended" }, account := some 4,
                    contact := some 5, contactUri := some 6 } true).1.account
        = none ∧
      (endSession { state := some { raw := "ended" }, account := some 4,
                    contact := some 5, contactUri := some 6 } true).1.contact
        = none ∧
      (endSession { state := some { raw := "ended" }, account := some 4,
                    contact := some 5, contactUri := some 6 } true).1.contactUri
        = none) :=
  end_from_ended_or_ending
    { state := some { raw := "ended" }, account := some 4,
      contact := some 5, contactUri := some 6 }
    { raw := "ended" } true rfl (Or.inr rfl)

/-- C1 (evaluation at the failing input): on a successful DNS lookup with
a non-empty route list, `_NH_DNSLookupDidSucceed` sets the state to the
literal `connection/dns_lookup_succeeded` found in the source, a value
that does not match the pattern `connecting/*` (every other state of the
machine uses the `connecting` prefix, so the guards written against
`connecting/*` — for example in `end()` — do not see this state). -/
theorem dns_lookup_succeeded_sets_mismatched_state :
    (dnsLookupDidSucceed
        { state := some { raw := "connecting/dns_lookup" },
          direction := some "outgoing", lookup := some 1 } 1 2 [0]).1.state =
      some { raw := "connection/dns_lookup_succeeded" } ∧
    sessionStateEqStr "connection/dns_lookup_succeeded" "connecting/*" = false ∧
    sessionStateEqStr "connecting/dns_lookup_succeeded" "connecting/*" = true := by
  refine ⟨?_, by decide, by decide⟩
  decide

/-- A state matching `connecting/*` has state part `connecting`. -/
theorem statePart_of_connecting (r : String)
    (h : sessionStateEqStr r "connecting/*" = true) :
    statePart r = some "connecting" := by
  have h1 : statePart "connecting/*" = some "connecting" := by decide
  have h2 : substatePart "connecting/*" = some "*" := by decide
  simp only [sessionStateEqStr, h1, h2] at h
  rw [if_neg (by decide), if_pos (by decide)] at h
  exact beq_iff_eq.mp h

/-- `_terminate` called on a session in a `connecting/*` state: passes
through `ending` (posting `BlinkSessionWillEnd`), clears the streams and
the lookup/engine references, assigns `ended` with the given reason and
error flag (posting the state change and `BlinkSessionDidEnd`), then
self-deletes exactly when not persistent. -/
theorem terminate_from_connecting (s : BlinkSession) (st : SessionState)
    (reason : String) (error : Bool) (hs : s.state = some st)
    (hconn : sessionStateEqStr st.raw "connecting/*" = true) :
    Notif.didEnd reason error ∈ (terminate s reason error).2 ∧
    Notif.willEnd ∈ (terminate s reason error).2 ∧
    Notif.didChangeState (some { raw := "ending" })
        (some { raw := "ended", reason := some reason, error := error }) ∈
      (terminate s reason error).2 ∧
    (terminate s reason error).1.streams = [] ∧
    (terminate s reason error).1.lookup = none ∧
    (terminate s reason error).1.sipSession = none ∧
    ((terminate s reason error).1.state =
        some { raw := "ended", reason := some reason, error := error } ∨
      (terminate s reason error).1.state = some { raw := "deleted" }) ∧
    (persistent s = true →
      (terminate s reason error).1.state =
        some { raw := "ended", reason := some reason, error := error }) := by
  have hsp := statePart_of_connecting st.raw hconn
  have hne : sessionStateEqStr st.raw "ending" = false := by
    have h1 : statePart "ending" = some "ending" := by decide
    have h2 : substatePart "ending" = none := by decide
    simp [sessionStateEqStr, h1, h2, hsp]
  have hx2 : (statePart "ending" == some "connecting") = false := by decide
  have hne2 : stateNe (some { raw := "ending" }) (some st) = true := by
    simp [stateNe, hsp, hx2]
  have hx3 : (statePart "ended" == statePart "ending") = false := by decide
  have hne3 : stateNe
      (some { raw := "ended", reason := some reason, error := error })
      (some { raw := "ending" }) = true := by
    simp [stateNe, hx3]
  have hended : sessionStateEqStr "ended" "ended" = true := by decide
  have hx4 : (statePart "deleted" == statePart "ended") = false := by decide
  have hne4 : stateNe (some { raw := "deleted" })
      (some { raw := "ended", reason := some reason, error := error }) = true := by
    simp [stateNe, hx4]
  cases hb1 : s.deleteWhenDone <;> cases hb2 : s.deleteRequested <;>
    simp [terminate, setState, hs, hne, hne2, hne3, hne4, persistent, hb1, hb2,
      deleteSession, hended]

/-- C7: for a session in a `connecting/*` state whose DNS lookup fails, or
succeeds with an empty route list, the session terminates: it reaches
`ended` with reason `Domain not found in DNS` and the error flag set,
with streams cleared and the lookup and engine-session references
dropped (and then self-deletes exactly when not persistent). -/
theorem dns_failure_terminates (s : BlinkSession) (st : SessionState)
    (k m : Nat) (hlk : s.lookup = some k) (hs : s.state = some st)
    (hconn : sessionStateEqStr st.raw "connecting/*" = true) :
    (Notif.didEnd "Domain not found in DNS" true ∈ (dnsLookupDidFail s k).2 ∧
      Notif.willEnd ∈ (dnsLookupDidFail s k).2 ∧
      Notif.didChangeState (some { raw := "ending" })
          (some { raw := "ended", reason := some "Domain not found in DNS",
                  error := true }) ∈ (dnsLookupDidFail s k).2 ∧
      (dnsLookupDidFail s k).1.streams = [] ∧
      (dnsLookupDidFail s k).1.lookup = none ∧
      (dnsLookupDidFail s k).1.sipSession = none ∧
      ((dnsLookupDidFail s k).1.state =
          some { raw := "ended", reason := some "Domain not found in DNS",
                 error := true } ∨
        (dnsLookupDidFail s k).1.state = some { raw := "deleted" }) ∧
      (persistent s = true →
        (dnsLookupDidFail s k).1.state =
          some { raw := "ended", reason := some "Domain not found in DNS",
                 error := true })) ∧
    (Notif.didEnd "Domain not found in DNS" true ∈
        (dnsLookupDidSucceed s k m []).2 ∧
      Notif.willEnd ∈ (dnsLookupDidSucceed s k m []).2 ∧
      Notif.didChangeState (some { raw := "ending" })
          (some { raw := "ended", reason := some "Domain not found in DNS",
                  error := true }) ∈ (dnsLookupDidSucceed s k m []).2 ∧
      (dnsLookupDidSucceed s k m []).1.streams = [] ∧
      (dnsLookupDidSucceed s k m []).1.lookup = none ∧
      (dnsLookupDidSucceed s k m []).1.sipSession = none ∧
      ((dnsLookupDidSucceed s k m []).1.state =
          some { raw := "ended", reason := some "Domain not found in DNS",
                 error := true } ∨
        (dnsLookupDidSucceed s k m []).1.state = some { raw := "deleted" }) ∧
      (persistent s = true →
        (dnsLookupDidSucceed s k m []).1.state =
          some { raw := "ended", reason := some "Domain not found in DNS",
                 error := true })) := by
  have h1 : dnsLookupDidFail s k = terminate s "Domain not found in DNS" true := by
    simp [dnsLookupDidFail, hlk]
  have h2 : dnsLookupDidSucceed s k m [] =
      terminate { s with routes := none } "Domain not found in DNS" true := by
    simp [dnsLookupDidSucceed, hlk]
  have hA := terminate_from_connecting s st "Domain not found in DNS" true hs hconn
  have hB := terminate_from_connecting { s with routes := none } st
    "Domain not found in DNS" true (by simp [hs]) hconn
  have hpB : persistent { s with routes := none : BlinkSession } = persistent s := by
    simp [persistent]
  rw [h1, h2]
  refine ⟨hA, ?_⟩
  refine ⟨hB.1, hB.2.1, hB.2.2.1, hB.2.2.2.1, hB.2.2.2.2.1, hB.2.2.2.2.2.1,
    hB.2.2.2.2.2.2.1, ?_⟩
  intro hp
  exact hB.2.2.2.2.2.2.2 (by rw [hpB]; exact hp)

/-- Closed instance of C7 at a session looking up DNS for an outgoing
call. -/
theorem dns_failure_terminates_witness :
    Notif.didEnd "Domain not found in DNS" true ∈
      (dnsLookupDidFail
        { state := some { raw := "connecting/dns_lookup" },
          direction := some "outgoing", lookup := some 3 } 3).2 ∧
    (dnsLookupDidSucceed
        { state := some { raw := "connecting/dns_lookup" },
          direction := some "outgoing", lookup := some 3 } 3 9 []).1.state =
      some { raw := "ended", reason := some "Domain not found in DNS",
             error := true } :=
  have h := dns_failure_terminates
    { state := some { raw := "connecting/dns_lookup" },
      direction := some "outgoing", lookup := some 3 }
    { raw := "connecting/dns_lookup" } 3 9 rfl rfl (by decide)
  ⟨h.1.1, h.2.2.2.2.2.2.2.2 rfl⟩

/-- The descriptor assignment never changes the resulting type: keeping
the old player only happens when its type already equals the new one. -/
theorem assignRingtone_ttype (old nw : Tone) :
    (assignRingtone old nw).ttype = nw.ttype := by
  simp only [assignRingtone]
  split
  · next h =>
    simp only [Bool.and_eq_true] at h
    exact (beq_iff_eq.mp h.2).symm
  · rfl

/-- Re-assigning the same computed ringtone is a no-op. -/
theorem assignRingtone_idem (old nw : Tone) :
    assignRingtone (assignRingtone old nw) nw = assignRingtone old nw := by
  by_cases h : (nw.ttype != ToneType.nullT && nw.ttype == old.ttype) = true
  · simp [assignRingtone, h]
  · simp only [assignRingtone, h, if_false, Bool.false_eq_true]
    split <;> rfl

/-- C3: `update_ringtone` is a pure function of the snapshot: it leaves
the snapshot untouched (its only effect is assigning the three
tone-player fields), two manager states with the same snapshot get the
same `(outbound, inbound, hold)` tone-type triple, and running it twice
equals running it once. -/
theorem update_ringtone_pure :
    (∀ m : ManagerState, (update_ringtone m).snap = m.snap) ∧
    (∀ m m2 : ManagerState, m.snap = m2.snap →
      toneTypes (update_ringtone m) = toneTypes (update_ringtone m2)) ∧
    (∀ m : ManagerState, update_ringtone (update_ringtone m) = update_ringtone m) := by
  refine ⟨fun m => rfl, ?_, ?_⟩
  · intro m m2 h
    simp [toneTypes, update_ringtone, assignRingtone_ttype, h]
  · intro m
    simp [update_ringtone, assignRingtone_idem]

/-- Closed instance of C3: two manager states sharing a snapshot but with
different current players produce the same tone-type triple. -/
theorem update_ringtone_pure_witness :
    toneTypes (update_ringtone
      { snap := { sessions := [], fileTransfers := [], incomingRequests := [],
                  activeSession := none,
                  settings := { outboundRingtone := none, inboundRingtone := none,
                                silent := false } } }) =
    toneTypes (update_ringtone
      { snap := { sessions := [], fileTransfers := [], incomingRequests := [],
                  activeSession := none,
                  settings := { outboundRingtone := none, inboundRingtone := none,
                                silent := false } },
        outboundRingtone := { ttype := ToneType.primary, path := "x" } }) :=
  update_ringtone_pure.2.1
    { snap := { sessions := [], fileTransfers := [], incomingRequests := [],
                activeSession := none,
                settings := { outboundRingtone := none, inboundRingtone := none,
                              silent := false } } }
    { snap := { sessions := [], fileTransfers := [], incomingRequests := [],
                activeSession := none,
                settings := { outboundRingtone := none, inboundRingtone := none,
                              silent := false } },
      outboundRingtone := { ttype := ToneType.primary, path := "x" } }
    rfl

/-- Membership after ordered insertion: exactly the new element and the
old ones. -/
theorem mem_insort_right (x b : IncomingRequest) :
    ∀ l : List IncomingRequest, b ∈ insort_right x l ↔ b = x ∨ b ∈ l := by
  intro l
  induction l with
  | nil => simp [insort_right]
  | cons h t ih =>
    simp only [insort_right]
    split
    · simp
    · simp only [List.mem_cons, ih]
      tauto

/-- C6: incoming-request priorities are audio 0, video 1, screen sharing
2, chat 3, file transfer 4, otherwise `sys.maxsize`; ordered insertion
keeps the request list sorted by non-decreasing priority; and a freshly
shown dialog is activated only when its request sits at index 0. -/
theorem incoming_request_priority_queue :
    (∀ r : IncomingRequest,
      (r.isFileTransfer = true → r.priority = 4) ∧
      (r.isFileTransfer = false → r.hasAudio = true → r.priority = 0) ∧
      (r.isFileTransfer = false → r.hasAudio = false → r.hasVideo = true →
        r.priority = 1) ∧
      (r.isFileTransfer = false → r.hasAudio = false → r.hasVideo = false →
        r.hasScreen = true → r.priority = 2) ∧
      (r.isFileTransfer = false → r.hasAudio = false → r.hasVideo = false →
        r.hasScreen = false → r.hasChat = true → r.priority = 3) ∧
      (r.isFileTransfer = false → r.hasAudio = false → r.hasVideo = false →
        r.hasScreen = false → r.hasChat = false →
        r.priority = 9223372036854775807)) ∧
    (∀ (x : IncomingRequest) (l : List IncomingRequest),
      sortedByPriority l → sortedByPriority (insort_right x l)) ∧
    (∀ (hasActiveWindow : Bool) (l : List IncomingRequest) (x : IncomingRequest),
      showActivate hasActiveWindow l x = true →
      indexOfReq x (insort_right x l) = 0) := by
  refine ⟨?_, ?_, ?_⟩
  · intro r
    refine ⟨?_, ?_, ?_, ?_, ?_, ?_⟩ <;>
      · intros
        simp_all [IncomingRequest.priority]
  · intro x l
    induction l with
    | nil =>
      intro _
      simp [insort_right, sortedByPriority]
    | cons h t ih =>
      intro hs
      simp only [sortedByPriority, List.pairwise_cons] at hs
      simp only [insort_right]
      split
      · next hlt =>
        simp only [sortedByPriority, List.pairwise_cons]
        refine ⟨?_, hs.1, hs.2⟩
        intro b hb
        rcases List.mem_cons.mp hb with hb | hb
        · exact hb ▸ Nat.le_of_lt hlt
        · exact Nat.le_trans (Nat.le_of_lt hlt) (hs.1 b hb)
      · next hge =>
        simp only [sortedByPriority, List.pairwise_cons]
        refine ⟨?_, ih hs.2⟩
        intro b hb
        rcases (mem_insort_right x b t).mp hb with hb | hb
        · exact hb ▸ Nat.le_of_not_lt hge
        · exact hs.1 b hb
  · intro w l x h
    simp only [showActivate, Bool.and_eq_true, beq_iff_eq] at h
    exact h.2

/-- Closed instance of C6: inserting an audio request in front of a chat
request keeps the list sorted and activates the new dialog. -/
theorem incoming_request_priority_queue_witness :
    ({ rid := 1, hasAudio := true : IncomingRequest }.priority = 0) ∧
    sortedByPriority (insort_right { rid := 1, hasAudio := true }
      [{ rid := 2, hasChat := true }]) ∧
    indexOfReq { rid := 1, hasAudio := true }
      (insort_right { rid := 1, hasAudio := true }
        [{ rid := 2, hasChat := true }]) = 0 :=
  ⟨(incoming_request_priority_queue.1 { rid := 1, hasAudio := true }).2.1 rfl rfl,
   incoming_request_priority_queue.2.1 { rid := 1, hasAudio := true }
     [{ rid := 2, hasChat := true }] (by simp [sortedByPriority]),
   incoming_request_priority_queue.2.2 true [{ rid := 2, hasChat := true }]
     { rid := 1, hasAudio := true } (by decide)⟩

/-- C8: an outgoing push `BlinkFileTransfer` in `ended` (failed or not)
can retry: `connect()` does not raise, reuses the previously computed
hash when the file's mtime is unchanged from the recorded stat, passes
through `initialized` and ends up in `connecting/dns_lookup`. -/
theorem file_transfer_retry_from_ended (t : BlinkFileTransfer)
    (st : SessionState) (sel freshSel : FileSelector) (fstat oldStat : FileStat)
    (hdir : t.direction = some "outgoing") (hst : t.state = some st)
    (hraw : st.raw = "ended") (hsel : t.fileSelector = some sel)
    (htype : t.transferType = some "push") (hstat : t.stat = some oldStat)
    (hmtime : fstat.mtime = oldStat.mtime) :
    ∃ p : BlinkFileTransfer × List FTNotif,
      ftConnect t freshSel fstat = Except.ok p ∧
      p.1.state = some { raw := "connecting/dns_lookup" } ∧
      p.1.fileSelector = some { freshSel with hash := sel.hash } ∧
      p.1.stat = some fstat ∧
      FTNotif.willRetry ∈ p.2 ∧
      FTNotif.didChangeState (some st) (some { raw := "initialized" }) ∈ p.2 ∧
      FTNotif.didChangeState (some { raw := "initialized" })
        (some { raw := "connecting/dns_lookup" }) ∈ p.2 := by
  obtain ⟨raw, rsn, err⟩ := st
  simp only [SessionState.mk.injEq] at hraw
  subst hraw
  have h1 : sessionStateEqStr "ended" "ended" = true := by decide
  have h2 : sessionStateEqStr "ended" "encrypting" = false := by decide
  have h3 : (some "push" == some "pull") = false := by decide
  have h4 : (statePart "initialized" == statePart "ended") = false := by decide
  have h5 : stateNe (some { raw := "initialized" })
      (some { raw := "ended", reason := rsn, error := err }) = true := by
    simp [stateNe, h4]
  have h6 : (statePart "connecting/dns_lookup" == statePart "initialized") = false := by
    decide
  have h7 : stateNe (some { raw := "connecting/dns_lookup" })
      (some { raw := "initialized" }) = true := by
    simp [stateNe, h6]
  have heq : ftConnect t freshSel fstat = Except.ok
      ({ t with state := some { raw := "connecting/dns_lookup" },
                fileSelector := some { freshSel with hash := sel.hash },
                stat := some fstat },
       [FTNotif.didChangeState (some { raw := "ended", reason := rsn, error := err })
          (some { raw := "initialized" }),
        FTNotif.willRetry,
        FTNotif.didChangeState (some { raw := "initialized" })
          (some { raw := "connecting/dns_lookup" })]) := by
    simp [ftConnect, ftSetState, hdir, hst, hsel, htype, hstat, hmtime,
      h1, h2, h3, h5, h7]
  exact ⟨_, heq, rfl, rfl, rfl, by simp, by simp, by simp⟩

/-- Closed instance of C8: a failed (`error=true`) push transfer in
`ended` retries cleanly with the hash reused. -/
theorem file_transfer_retry_from_ended_witness :
    ∃ p : BlinkFileTransfer × List FTNotif,
      ftConnect
        { state := some { raw := "ended", reason := some "Connection failed", error := true },
          direction := some "outgoing", transferType := some "push",
          fileSelector := some { name := "f.bin", hash := some "abc" },
          stat := some { mtime := 10, size := 42 } }
        { name := "f.bin" } { mtime := 10, size := 42 } = Except.ok p ∧
      p.1.state = some { raw := "connecting/dns_lookup" } ∧
      p.1.fileSelector = some { name := "f.bin", hash := some "abc" } ∧
      p.1.stat = some { mtime := 10, size := 42 } ∧
      FTNotif.willRetry ∈ p.2 ∧
      FTNotif.didChangeState
        (some { raw := "ended", reason := some "Connection failed", error := true })
        (some { raw := "initialized" }) ∈ p.2 ∧
      FTNotif.didChangeState (some { raw := "initialized" })
        (some { raw := "connecting/dns_lookup" }) ∈ p.2 :=
  file_transfer_retry_from_ended
    { state := some { raw := "ended", reason := some "Connection failed", error := true },
      direction := some "outgoing", transferType := some "push",
      fileSelector := some { name := "f.bin", hash := some "abc" },
      stat := some { mtime := 10, size := 42 } }
    { raw := "ended", reason := some "Connection failed", error := true }
    { name := "f.bin", hash := some "abc" } { name := "f.bin" }
    { mtime := 10, size := 42 } { mtime := 10, size := 42 }
    rfl rfl rfl rfl rfl rfl rfl

/-- C9: removing a member from a client conference of exactly two
sessions dissolves it: both original members end up with no
`client_conference` and the member list is empty (never a 1-member
conference). -/
theorem conference_of_two_dissolves (w : ConfWorld) (a b x : Nat)
    (hm : w.members = [a, b]) (hab : a ≠ b)
    (ha : w.cc a = some 0) (hb : w.cc b = some 0)
    (hx : x = a ∨ x = b) :
    (removeSessionConf w x).members = [] ∧
    (removeSessionConf w x).cc a = none ∧
    (removeSessionConf w x).cc b = none := by
  have hcx : w.cc x = some 0 := by
    rcases hx with h | h <;> subst h <;> assumption
  have hba : ¬(b = a) := fun h => hab h.symm
  simp only [removeSessionConf, hcx, hm, List.length_cons, List.length_nil]
  norm_num
  simp [setCCNone, hm, ha, hb, hba, hab, List.erase_cons_head,
    List.erase_cons_tail]

/-- Closed instance of C9: a two-member conference dissolves when either
member is removed. -/
theorem conference_of_two_dissolves_witness :
    (removeSessionConf
      { members := [1, 2],
        cc := fun t => if t = 1 then some 0 else if t = 2 then some 0 else none }
      1).members = [] ∧
    (removeSessionConf
      { members := [1, 2],
        cc := fun t => if t = 1 then some 0 else if t = 2 then some 0 else none }
      1).cc 1 = none ∧
    (removeSessionConf
      { members := [1, 2],
        cc := fun t => if t = 1 then some 0 else if t = 2 then some 0 else none }
      1).cc 2 = none :=
  conference_of_two_dissolves
    { members := [1, 2],
      cc := fun t => if t = 1 then some 0 else if t = 2 then some 0 else none }
    1 2 1 rfl (by decide) rfl rfl (Or.inl rfl)

end Blink
